import Mathlib

/-!
Verification development for the Fruity Gulp juice-delivery backend.

The definitions below are a shallow embedding of the two computational cores
of the repository:

* the recommendation scoring engine
  (`backend/controllers/recommendationController.js`, `getRecommendations`),
* the order pricing and assembly pipeline
  (`backend/controllers/orderController.js`: `createOrder`, `cancelOrder`,
  `reorder`, together with `backend/utils/helpers.js`:
  `calculateDeliveryFee`, `calculateEstimatedDeliveryTime`).

JavaScript numbers are modelled as exact rationals (`ℚ`), JSON string arrays
as `List String`, and a JSON field that may be absent or not an array as an
`Option`.  The external Supabase store is modelled as an explicit in-memory
state (`Store`) threaded through the order pipeline, with a `StoreOracle`
deciding whether each write succeeds, and the nearest-outlet RPC as an
`Option OutletResult` argument.  The non-deterministic
`sort(() => Math.random() - 0.5)` shuffle of the fallback path is modelled as
an explicit reordering function argument, constrained to be a permutation in
the theorems.  Timestamps are modelled as rational minute counts relative to
an explicit `now` argument.
-/

namespace FruityGulp

/-! ## String primitives

Executable embeddings of the JavaScript string operations used by the code:
`String.prototype.toLowerCase` (ASCII case folding suffices for the catalog
and symptom data of this app) and `String.prototype.includes`. -/

/-- Embedding of JavaScript `s.toLowerCase()` as a character-by-character
ASCII case fold. -/
def lowerStr (s : String) : String :=
  ⟨s.data.map Char.toLower⟩

/-- Boolean test that the first character list starts the second. -/
def chStarts : List Char → List Char → Bool
  | [], _ => true
  | _ :: _, [] => false
  | a :: as, b :: bs => a == b && chStarts as bs

/-- Boolean test that the first character list occurs contiguously inside the
second. -/
def chContainsSub (needle : List Char) : List Char → Bool
  | [] => needle.isEmpty
  | c :: rest => chStarts needle (c :: rest) || chContainsSub needle rest

/-- Embedding of JavaScript `s.includes(sub)`: substring containment. -/
def strIncludes (s sub : String) : Bool :=
  chContainsSub sub.data s.data

/-! ## Shared helpers (`backend/utils/helpers.js`) -/

/-- Embedding of `calculateDeliveryFee` from `backend/utils/helpers.js`:
base fee 2000 plus 2000 per (ceiled) kilometre, in integer currency units. -/
def calculateDeliveryFee (distanceKm : ℚ) : ℤ :=
  2000 + 2000 * ⌈distanceKm⌉

/-! ## Data model -/

/-- Catalog product row (`products` table).  `ingredients = none` and
`health_benefits = none` model a field that is absent or not a JSON array,
which the JavaScript guards with `Array.isArray` checks. -/
structure Product where
  id : Nat
  name : String
  price_per_litre : ℚ
  ingredients : Option (List String)
  health_benefits : Option (List String)
  is_available : Bool
deriving DecidableEq

/-- Symptom-to-ingredient mapping row (`symptoms_ingredients` table). -/
structure SymptomMapping where
  symptom : String
  recommended_ingredients : Option (List String)
  avoid_ingredients : Option (List String)
deriving DecidableEq

/-- Scored product: a product snapshot extended with the recommendation
fields that `getRecommendations` spreads onto it. -/
structure ScoredProduct where
  product : Product
  recommendation_score : ℤ
  matched_ingredients : List String
  has_avoided_ingredients : Bool
  recommendation_reasons : List String
deriving DecidableEq

/-- Successful response payload of `getRecommendations` (the `data` object,
plus the human-readable `message`).  `symptom_mappings_found` is `none` on
the fallback path, which omits that field. -/
structure RecResponse where
  message : String
  recommendations : List ScoredProduct
  symptoms_analyzed : List String
  allergies_considered : List String
  total_products_analyzed : Nat
  symptom_mappings_found : Option Nat
deriving DecidableEq

/-! ## Recommendation engine
(`backend/controllers/recommendationController.js`) -/

/-- Embedding of the symptom-mapping fetch
`supabase.from('symptoms_ingredients').select('*').in('symptom',
symptoms.map(s => s.toLowerCase()))`: the rows whose `symptom` field equals
one of the lowercased request symptoms. -/
def matchedMappings (symptomMap : List SymptomMapping) (symptoms : List String) :
    List SymptomMapping :=
  symptomMap.filter (fun m => (symptoms.map lowerStr).contains m.symptom)

/-- Union of the lowercased `recommended_ingredients` of the matched
mappings (the JavaScript accumulates them into a `Set`; a list queried with
`contains` has the same membership). -/
def recommendedIngredientsOf (mappings : List SymptomMapping) : List String :=
  mappings.foldl
    (fun acc m => acc ++ (m.recommended_ingredients.getD []).map lowerStr) []

/-- Union of the lowercased `avoid_ingredients` of the matched mappings,
followed by the lowercased caller allergies. -/
def avoidIngredientsOf (mappings : List SymptomMapping) (allergies : List String) :
    List String :=
  mappings.foldl
    (fun acc m => acc ++ (m.avoid_ingredients.getD []).map lowerStr) []
  ++ allergies.map lowerStr

/-- One step of the per-ingredient scoring loop.  The state is
(score, matched ingredients so far, contains-avoided flag).  An avoided
ingredient subtracts 10 and sets the flag; a recommended ingredient adds 5
and records the ingredient in its original casing. -/
def ingredientScan (avoid recommend : List String)
    (st : ℤ × List String × Bool) (ingredient : String) :
    ℤ × List String × Bool :=
  let l := lowerStr ingredient
  let st1 := if avoid.contains l then (st.1 - 10, st.2.1, true) else st
  if recommend.contains l then (st1.1 + 5, st1.2.1 ++ [ingredient], st1.2.2)
  else st1

/-- Bonus points for health benefits whose (lowercased) text contains a
(lowercased) requested symptom or vice versa: +3 per benefit/symptom pair. -/
def benefitBonus (symptoms benefits : List String) : ℤ :=
  benefits.foldl
    (fun acc benefit =>
      symptoms.foldl
        (fun a symptom =>
          if strIncludes (lowerStr benefit) (lowerStr symptom)
              || strIncludes (lowerStr symptom) (lowerStr benefit)
          then a + 3 else a)
        acc)
    0

/-- Embedding of `generateRecommendationReasons`. -/
def generateRecommendationReasons
    (matchedIngredients healthBenefits symptoms : List String) : List String :=
  let reasons1 :=
    if matchedIngredients.length > 0 then
      ["Contains beneficial ingredients: "
        ++ String.intercalate ", " matchedIngredients]
    else []
  let relevantBenefits :=
    healthBenefits.filter (fun benefit =>
      symptoms.any (fun symptom =>
        strIncludes (lowerStr benefit) (lowerStr symptom)
          || strIncludes (lowerStr symptom) (lowerStr benefit)))
  let reasons2 :=
    if healthBenefits.length > 0 && relevantBenefits.length > 0 then
      reasons1 ++ ["Supports: " ++ String.intercalate ", " relevantBenefits]
    else reasons1
  if reasons2.length = 0 then ["Nutritious and refreshing choice"] else reasons2

/-- Scoring of one product: run the ingredient loop (skipped when
`ingredients` is absent or not an array), then add the health-benefit bonus
(likewise skipped when absent), and attach the generated reasons. -/
def scoreProduct (avoid recommend symptoms : List String) (p : Product) :
    ScoredProduct :=
  let scan := (p.ingredients.getD []).foldl (ingredientScan avoid recommend)
    (0, [], false)
  { product := p
    recommendation_score :=
      scan.1 + benefitBonus symptoms (p.health_benefits.getD [])
    matched_ingredients := scan.2.1
    has_avoided_ingredients := scan.2.2
    recommendation_reasons :=
      generateRecommendationReasons scan.2.1 (p.health_benefits.getD []) symptoms }

/-- Stable insertion used by `stableSortBy`: the new element goes in front of
the first element it may precede, so earlier elements keep priority on
ties. -/
def stableInsert (le : α → α → Bool) (a : α) : List α → List α
  | [] => [a]
  | b :: bs => if le a b then a :: b :: bs else b :: stableInsert le a bs

/-- Stable sort by the Boolean relation `le` ("may come before"): the
embedding of the stable JavaScript `Array.prototype.sort`. -/
def stableSortBy (le : α → α → Bool) : List α → List α
  | [] => []
  | a :: as => stableInsert le a (stableSortBy le as)

/-- Descending-score comparison used by
`.sort((a, b) => b.recommendation_score - a.recommendation_score)`:
`a` may come before `b` when its score is at least `b`'s. -/
def scoreGe (a b : ScoredProduct) : Bool :=
  decide (b.recommendation_score ≤ a.recommendation_score)

/-- Embedding of the fallback-path filter body: a product with an ingredient
array is kept iff none of its (lowercased) ingredients is avoided; a product
whose `ingredients` is absent or not an array is always kept. -/
def fallbackKeep (avoid : List String) (p : Product) : Bool :=
  match p.ingredients with
  | some ings => !(ings.any (fun i => avoid.contains (lowerStr i)))
  | none => true

/-- Fallback ("general") recommendations: filter the available products by
`fallbackKeep`, reorder them with the random shuffle (modelled by the
`shuffle` argument), take 3, and attach the fixed fallback fields. -/
def fallbackRecommendations (shuffle : List Product → List Product)
    (avoid : List String) (products : List Product) : List ScoredProduct :=
  ((shuffle (products.filter (fallbackKeep avoid))).take 3).map
    (fun p =>
      { product := p
        recommendation_score := 1
        matched_ingredients := []
        has_avoided_ingredients := false
        recommendation_reasons :=
          ["General wellness support", "No conflicting ingredients"] })

/-- Embedding of `getRecommendations`.  `shuffle` stands for the
`sort(() => Math.random() - 0.5)` random reordering of the fallback path;
`symptomMap` and `allProducts` are the two tables read from the store. -/
def getRecommendations (shuffle : List Product → List Product)
    (symptoms allergies : List String)
    (symptomMap : List SymptomMapping) (allProducts : List Product) :
    Except String RecResponse :=
  if symptoms.isEmpty then .error "At least one symptom is required"
  else
    let mappings := matchedMappings symptomMap symptoms
    let recommend := recommendedIngredientsOf mappings
    let avoid := avoidIngredientsOf mappings allergies
    let products := allProducts.filter (fun p => p.is_available)
    let scored := products.map (scoreProduct avoid recommend symptoms)
    let filtered :=
      (stableSortBy scoreGe
        (scored.filter (fun sp =>
          !sp.has_avoided_ingredients && decide (0 < sp.recommendation_score)))).take 3
    if filtered.isEmpty then
      .ok
        { message := "No specific matches found. Here are some general recommendations."
          recommendations := fallbackRecommendations shuffle avoid products
          symptoms_analyzed := symptoms
          allergies_considered := allergies
          total_products_analyzed := products.length
          symptom_mappings_found := none }
    else
      .ok
        { message := "Recommendations generated successfully"
          recommendations := filtered
          symptoms_analyzed := symptoms
          allergies_considered := allergies
          total_products_analyzed := products.length
          symptom_mappings_found := some mappings.length }

/-- Case-insensitive symptom match as worded by the specification
("look up every SymptomMapping whose `symptom` field case-insensitively
equals one of the requested symptoms").  Kept separate from the code-derived
`matchedMappings` so the two can be compared. -/
def symptomMatchesSpec (m : SymptomMapping) (symptoms : List String) : Bool :=
  symptoms.any (fun s => lowerStr s == lowerStr m.symptom)

/-- Count, as worded by the specification, of the products that contain no
ingredient of the allergy set `G` (case-insensitively); a product without an
ingredient array contains nothing. -/
def countNoConflict (G : List String) (products : List Product) : Nat :=
  (products.filter (fun p =>
    match p.ingredients with
    | some ings => !(ings.any (fun i => (G.map lowerStr).contains (lowerStr i)))
    | none => true)).length

/-! ## Order pipeline (`backend/controllers/orderController.js`) -/

/-- Order status values (`orders.status` check constraint). -/
inductive OrderStatus where
  | pending
  | confirmed
  | preparing
  | out_for_delivery
  | delivered
  | cancelled
deriving DecidableEq

/-- Structured delivery address (`{street, city, district}`). -/
structure Address where
  street : String
  city : String
  district : String
deriving DecidableEq

/-- One requested line item of an order creation request. -/
structure OrderItemReq where
  product_id : Nat
  quantity_litres : ℚ
deriving DecidableEq

/-- Persisted line-item row (`order_items` table, minus ids and order id). -/
structure OrderItemRow where
  product_id : Nat
  quantity_litres : ℚ
  unit_price : ℚ
  subtotal : ℚ
deriving DecidableEq

/-- Persisted order header row (`orders` table).  Timestamps are rational
minute counts relative to the `now` argument of `createOrder`; the random
demo rider is an opaque string injected by the caller. -/
structure OrderRow where
  id : Nat
  user_id : Nat
  outlet_id : Nat
  total_amount : ℚ
  delivery_fee : ℤ
  status : OrderStatus
  payment_method : String
  delivery_address : Option Address
  delivery_lat : ℚ
  delivery_lng : ℚ
  estimated_delivery_time : ℚ
  rider_info : String
deriving DecidableEq

/-- Line-item row tagged with the order it belongs to. -/
structure OrderItemEntry where
  order_id : Nat
  item : OrderItemRow
deriving DecidableEq

/-- In-memory model of the two order tables of the external store. -/
structure Store where
  orders : List OrderRow
  order_items : List OrderItemEntry
deriving DecidableEq

/-- Result of the `get_nearest_outlet` RPC. -/
structure OutletResult where
  outlet_id : Nat
  distance_km : ℚ
deriving DecidableEq

/-- Oracle deciding whether the two insert steps of `createOrder` succeed;
this models the store errors (`orderError`, `itemsError`) the JavaScript
branches on. -/
structure StoreOracle where
  orderInsertOk : Bool
  itemsInsertOk : Bool
deriving DecidableEq

/-- Typed failures of the order pipeline (HTTP error responses of
`createOrder`, `cancelOrder` and `reorder`). -/
inductive OrderError where
  | NoOutletAvailable
  | ProductUnavailable (product_id : Nat)
  | OrderCreationFailed
  | OrderItemsCreationFailed
  | OrderNotFound
  | InvalidStateTransition
  | UpdateFailed
deriving DecidableEq

/-- Embedding of JavaScript `x || d` for an optional number: `undefined`,
and the falsy number 0, fall back to the default. -/
def jsOrNum (x : Option ℚ) (d : ℚ) : ℚ :=
  match x with
  | some v => if v = 0 then d else v
  | none => d

/-- Embedding of JavaScript `x || d` for an optional string: `undefined`,
and the falsy empty string, fall back to the default. -/
def jsOrStr (x : Option String) (d : String) : String :=
  match x with
  | some s => if s = "" then d else s
  | none => d

/-- Embedding of JavaScript `x || d` for an optional object: any present
object is truthy, only `undefined` falls back. -/
def jsOrAddr (x d : Option Address) : Option Address :=
  match x with
  | some a => some a
  | none => d

/-- Embedding of the per-item product fetch
`from('products').select('*').eq('id', item.product_id)
.eq('is_available', true).single()`. -/
def lookupAvailable (catalog : List Product) (pid : Nat) : Option Product :=
  (catalog.filter (fun p => p.id == pid && p.is_available)).head?

/-- Embedding of the item pricing loop of `createOrder`: resolve each
requested item against the available catalog, failing on the first product
that is missing or unavailable, and snapshot unit price and subtotal. -/
def resolveItems (catalog : List Product) :
    List OrderItemReq → Except OrderError (List OrderItemRow)
  | [] => .ok []
  | item :: rest =>
    match lookupAvailable catalog item.product_id with
    | none => .error (.ProductUnavailable item.product_id)
    | some p =>
      match resolveItems catalog rest with
      | .error e => .error e
      | .ok rows =>
        .ok ({ product_id := item.product_id
               quantity_litres := item.quantity_litres
               unit_price := p.price_per_litre
               subtotal := p.price_per_litre * item.quantity_litres } :: rows)

/-- Embedding of `createOrder`: resolve the nearest outlet, compute fee and
estimated time, price the items, write the order header, write the line
items, and on an item-write failure delete the order header again
(compensating rollback).  The enrichment re-fetch of the JavaScript is
response shaping only and changes no state, so it is not part of the
model. -/
def createOrder (oracle : StoreOracle) (newOrderId userId : Nat)
    (nearestOutlet : Option OutletResult) (catalog : List Product)
    (items : List OrderItemReq) (delivery_address : Option Address)
    (payment_method : Option String) (delivery_lat delivery_lng : ℚ)
    (now : ℚ) (riderInfo : String) (store : Store) :
    Except OrderError OrderRow × Store :=
  match nearestOutlet with
  | none => (.error .NoOutletAvailable, store)
  | some outlet =>
    let deliveryFee := calculateDeliveryFee outlet.distance_km
    let estimatedDeliveryTime := now + 30 + 10 * outlet.distance_km
    match resolveItems catalog items with
    | .error e => (.error e, store)
    | .ok rows =>
      let totalAmount := (rows.map (fun r => r.subtotal)).sum + (deliveryFee : ℚ)
      if oracle.orderInsertOk then
        let order : OrderRow :=
          { id := newOrderId
            user_id := userId
            outlet_id := outlet.outlet_id
            total_amount := totalAmount
            delivery_fee := deliveryFee
            status := .pending
            payment_method := jsOrStr payment_method "cash"
            delivery_address := delivery_address
            delivery_lat := delivery_lat
            delivery_lng := delivery_lng
            estimated_delivery_time := estimatedDeliveryTime
            rider_info := riderInfo }
        let store1 : Store := { store with orders := store.orders ++ [order] }
        if oracle.itemsInsertOk then
          (.ok order,
            { store1 with
              order_items :=
                store1.order_items
                  ++ rows.map (fun r => { order_id := newOrderId, item := r }) })
        else
          (.error .OrderItemsCreationFailed,
            { store1 with
              orders := store1.orders.filter (fun o => o.id != newOrderId) })
      else (.error .OrderCreationFailed, store)

/-- Embedding of `cancelOrder`: look the order up by id and owner, reject any
status other than `pending` or `confirmed`, otherwise set the status to
`cancelled` (the `updateOk` flag models the store update call failing). -/
def cancelOrder (updateOk : Bool) (orderId userId : Nat) (store : Store) :
    Except OrderError Unit × Store :=
  match (store.orders.filter (fun o => o.id == orderId && o.user_id == userId)).head? with
  | none => (.error .OrderNotFound, store)
  | some order =>
    if order.status == .pending || order.status == .confirmed then
      if updateOk then
        (.ok (),
          { store with
            orders := store.orders.map (fun o =>
              if o.id == orderId then { o with status := .cancelled } else o) })
      else (.error .UpdateFailed, store)
    else (.error .InvalidStateTransition, store)

/-- Line items of a stored order, stripped to the request shape
(`product_id`, `quantity_litres`) the way `reorder` re-submits them. -/
def orderItemsFor (store : Store) (orderId : Nat) : List OrderItemReq :=
  (store.order_items.filter (fun e => e.order_id == orderId)).map
    (fun e =>
      { product_id := e.item.product_id
        quantity_litres := e.item.quantity_litres })

/-- Embedding of `reorder`: load the prior order, apply the caller-supplied
overrides with JavaScript `||` semantics, and re-run `createOrder` as a fresh
order.  `nearestOutletAt` models the nearest-outlet RPC as a function of the
resolved delivery coordinate. -/
def reorder (oracle : StoreOracle) (newOrderId orderId userId : Nat)
    (delivery_address : Option Address) (delivery_lat delivery_lng : Option ℚ)
    (payment_method : Option String)
    (nearestOutletAt : ℚ → ℚ → Option OutletResult)
    (catalog : List Product) (now : ℚ) (riderInfo : String) (store : Store) :
    Except OrderError OrderRow × Store :=
  match (store.orders.filter (fun o => o.id == orderId && o.user_id == userId)).head? with
  | none => (.error .OrderNotFound, store)
  | some orig =>
    let lat := jsOrNum delivery_lat orig.delivery_lat
    let lng := jsOrNum delivery_lng orig.delivery_lng
    createOrder oracle newOrderId userId (nearestOutletAt lat lng) catalog
      (orderItemsFor store orderId)
      (jsOrAddr delivery_address orig.delivery_address)
      (some (jsOrStr payment_method orig.payment_method))
      lat lng now riderInfo store

/-! ## Concrete sample data

Small catalogs, stores and expected outputs used to instantiate the theorems
below on fully concrete inputs. -/

/-- Empty store. -/
def store0 : Store := { orders := [], order_items := [] }

/-- Oracle with both order writes succeeding. -/
def oracleOk : StoreOracle := { orderInsertOk := true, itemsInsertOk := true }

/-- Oracle whose header insert succeeds and whose line-item insert fails. -/
def oracleItemsFail : StoreOracle := { orderInsertOk := true, itemsInsertOk := false }

/-- Two-product catalog at the prices of the specification example. -/
def catalogC1 : List Product :=
  [ { id := 1, name := "Mango Tango", price_per_litre := 15000,
      ingredients := some ["mango"], health_benefits := none, is_available := true },
    { id := 2, name := "Green Revitalizer", price_per_litre := 18000,
      ingredients := some ["spinach"], health_benefits := none, is_available := true } ]

/-- Line items of the specification example: half a litre at 15000/L and one
litre at 18000/L. -/
def itemsC1 : List OrderItemReq :=
  [ { product_id := 1, quantity_litres := 0.5 },
    { product_id := 2, quantity_litres := 1 } ]

/-- Nearest outlet of the specification example, at 3.0 km. -/
def outletC1 : OutletResult := { outlet_id := 7, distance_km := 3 }

/-- Priced rows the pipeline derives from `itemsC1` against `catalogC1`. -/
def rowsC1 : List OrderItemRow :=
  [ { product_id := 1, quantity_litres := 0.5, unit_price := 15000, subtotal := 7500 },
    { product_id := 2, quantity_litres := 1, unit_price := 18000, subtotal := 18000 } ]

/-- Order header the pipeline persists for the specification example. -/
def orderC1 : OrderRow :=
  { id := 10, user_id := 1, outlet_id := 7, total_amount := 33500,
    delivery_fee := 8000, status := .pending, payment_method := "cash",
    delivery_address := none, delivery_lat := 1, delivery_lng := 2,
    estimated_delivery_time := 60, rider_info := "Kato" }

/-- Symptom mapping for flu: recommends orange, avoids dairy. -/
def mapFlu : SymptomMapping :=
  { symptom := "flu", recommended_ingredients := some ["orange"],
    avoid_ingredients := some ["dairy"] }

/-- Symptom mapping stored with an uppercase letter in its key. -/
def mapUpper : SymptomMapping :=
  { symptom := "Flu", recommended_ingredients := some ["orange"],
    avoid_ingredients := some [] }

/-- Available product containing orange (stored in its original casing). -/
def prodOrange : Product :=
  { id := 1, name := "Citrus Sunrise", price_per_litre := 12000,
    ingredients := some ["Orange"], health_benefits := none, is_available := true }

/-- Available product containing dairy. -/
def prodMilk : Product :=
  { id := 1, name := "Milk Shake", price_per_litre := 5000,
    ingredients := some ["dairy"], health_benefits := none, is_available := true }

/-- Two bland available products (no scoring signal, nothing avoided). -/
def prodA : Product :=
  { id := 1, name := "Juice A", price_per_litre := 1000,
    ingredients := some [], health_benefits := none, is_available := true }

/-- Companion to `prodA`. -/
def prodB : Product :=
  { id := 2, name := "Juice B", price_per_litre := 1000,
    ingredients := some [], health_benefits := none, is_available := true }

/-- Available product whose `ingredients` field is not an array. -/
def prodNoIngredients : Product :=
  { id := 3, name := "Mystery Blend", price_per_litre := 9000,
    ingredients := none, health_benefits := some ["immunity boost"],
    is_available := true }

/-- Expected scored-path response for symptoms ["flu"], allergies ["dairy"],
mapping `mapFlu` and catalog `[prodOrange]`. -/
def respC3 : RecResponse :=
  { message := "Recommendations generated successfully"
    recommendations :=
      [ { product := prodOrange, recommendation_score := 5,
          matched_ingredients := ["Orange"], has_avoided_ingredients := false,
          recommendation_reasons := ["Contains beneficial ingredients: Orange"] } ]
    symptoms_analyzed := ["flu"]
    allergies_considered := ["dairy"]
    total_products_analyzed := 1
    symptom_mappings_found := some 1 }

/-- Expected fallback response for symptoms ["flu"], no allergies, mapping
`mapFlu` and catalog `[prodMilk]`: the milk product is avoided via the
symptom mapping, so even the fallback list is empty. -/
def respC6 : RecResponse :=
  { message := "No specific matches found. Here are some general recommendations."
    recommendations := []
    symptoms_analyzed := ["flu"]
    allergies_considered := []
    total_products_analyzed := 1
    symptom_mappings_found := none }

/-- Fallback response for symptoms ["flu"], no allergies, an empty symptom
map and catalog `[prodA, prodB]` under the identity shuffle. -/
def respAB : RecResponse :=
  { message := "No specific matches found. Here are some general recommendations."
    recommendations :=
      [ { product := prodA, recommendation_score := 1, matched_ingredients := [],
          has_avoided_ingredients := false,
          recommendation_reasons :=
            ["General wellness support", "No conflicting ingredients"] },
        { product := prodB, recommendation_score := 1, matched_ingredients := [],
          has_avoided_ingredients := false,
          recommendation_reasons :=
            ["General wellness support", "No conflicting ingredients"] } ]
    symptoms_analyzed := ["flu"]
    allergies_considered := []
    total_products_analyzed := 2
    symptom_mappings_found := none }

/-- Same run under the reversing shuffle: the same two fallback entries in
the opposite order. -/
def respBA : RecResponse :=
  { respAB with recommendations := respAB.recommendations.reverse }

/-- Pending order owned by user 1, used to exercise cancellation. -/
def orderPending : OrderRow :=
  { id := 1, user_id := 1, outlet_id := 7, total_amount := 10000,
    delivery_fee := 4000, status := .pending, payment_method := "cash",
    delivery_address := none, delivery_lat := 1, delivery_lng := 2,
    estimated_delivery_time := 40, rider_info := "Kato" }

/-- Same order in status `preparing`. -/
def orderPreparing : OrderRow :=
  { orderPending with status := .preparing }

/-- Store holding only `orderPending`. -/
def storePending : Store := { orders := [orderPending], order_items := [] }

/-- Store holding only `orderPreparing`. -/
def storePreparing : Store := { orders := [orderPreparing], order_items := [] }

/-- Single-product catalog for the reorder scenarios. -/
def catalogC9 : List Product :=
  [ { id := 1, name := "Plain Juice", price_per_litre := 5000,
      ingredients := some [], health_benefits := none, is_available := true } ]

/-- Prior order at latitude 5, longitude 6, used as the reorder source. -/
def orderOrig : OrderRow :=
  { id := 1, user_id := 1, outlet_id := 7, total_amount := 9000,
    delivery_fee := 4000, status := .delivered, payment_method := "cash",
    delivery_address := some { street := "Plot 1", city := "Kampala", district := "Central" },
    delivery_lat := 5, delivery_lng := 6,
    estimated_delivery_time := 40, rider_info := "Kato" }

/-- Line item of `orderOrig`. -/
def entryOrig : OrderItemEntry :=
  { order_id := 1,
    item := { product_id := 1, quantity_litres := 1, unit_price := 5000, subtotal := 5000 } }

/-- Store holding `orderOrig` and its line item. -/
def storeC9 : Store := { orders := [orderOrig], order_items := [entryOrig] }

/-- Constant nearest-outlet resolver used in the reorder scenarios. -/
def outletAtC9 : ℚ → ℚ → Option OutletResult :=
  fun _ _ => some { outlet_id := 9, distance_km := 1 }

/-! ## General lemmas about the embedding -/

theorem stableInsert_perm (le : α → α → Bool) (a : α) (l : List α) :
    (stableInsert le a l).Perm (a :: l) := by
  induction l with
  | nil => exact List.Perm.refl _
  | cons b bs ih =>
    simp only [stableInsert]
    split
    · exact List.Perm.refl _
    · exact (ih.cons b).trans (List.Perm.swap a b bs)

theorem stableSortBy_perm (le : α → α → Bool) (l : List α) :
    (stableSortBy le l).Perm l := by
  induction l with
  | nil => exact List.Perm.refl _
  | cons a as ih => exact (stableInsert_perm le a (stableSortBy le as)).trans (ih.cons a)

theorem contains_iff_mem (l : List String) (a : String) :
    l.contains a = true ↔ a ∈ l := by
  simp [List.contains, List.elem_iff]

theorem ingredientScan_flag_step (avoid recommend : List String)
    (st : ℤ × List String × Bool) (i : String) :
    (ingredientScan avoid recommend st i).2.2
      = (st.2.2 || avoid.contains (lowerStr i)) := by
  simp only [ingredientScan]
  split <;> split <;> simp_all

theorem ingredientScan_flag (avoid recommend : List String)
    (l : List String) (st : ℤ × List String × Bool) :
    (l.foldl (ingredientScan avoid recommend) st).2.2
      = (st.2.2 || l.any (fun i => avoid.contains (lowerStr i))) := by
  induction l generalizing st with
  | nil => simp
  | cons i rest ih =>
    simp only [List.foldl_cons, List.any_cons]
    rw [ih, ingredientScan_flag_step]
    simp [Bool.or_assoc]

theorem scoreProduct_hasAvoided (avoid recommend symptoms : List String)
    (p : Product) :
    (scoreProduct avoid recommend symptoms p).has_avoided_ingredients
      = (p.ingredients.getD []).any (fun i => avoid.contains (lowerStr i)) := by
  simp [scoreProduct, ingredientScan_flag]

theorem allergy_mem_avoid (mappings : List SymptomMapping)
    (allergies : List String) (g : String) (hg : g ∈ allergies) :
    lowerStr g ∈ avoidIngredientsOf mappings allergies := by
  unfold avoidIngredientsOf
  exact List.mem_append.mpr (Or.inr (List.mem_map.mpr ⟨g, hg, rfl⟩))

theorem no_allergen_of_any_eq_false (mappings : List SymptomMapping)
    (allergies : List String) (ings : List String)
    (h : ings.any
      (fun i => (avoidIngredientsOf mappings allergies).contains (lowerStr i)) = false) :
    ∀ i ∈ ings, ∀ g ∈ allergies, lowerStr i ≠ lowerStr g := by
  intro i hi g hg heq
  rw [List.any_eq_false] at h
  exact h i hi
    ((contains_iff_mem _ _).mpr (heq ▸ allergy_mem_avoid mappings allergies g hg))

theorem lookupAvailable_spec (catalog : List Product) (pid : Nat) (p : Product)
    (h : lookupAvailable catalog pid = some p) :
    p ∈ catalog ∧ p.id = pid ∧ p.is_available = true := by
  unfold lookupAvailable at h
  cases hf : catalog.filter (fun q => q.id == pid && q.is_available) with
  | nil => rw [hf] at h; cases h
  | cons q qs =>
    rw [hf, List.head?_cons] at h
    injection h with h
    have hq : q ∈ catalog.filter (fun r => r.id == pid && r.is_available) := by
      rw [hf]
      exact List.mem_cons_self _ _
    have hmem := List.mem_filter.mp hq
    have hpred := hmem.2
    simp only [Bool.and_eq_true, beq_iff_eq] at hpred
    exact h ▸ ⟨hmem.1, hpred.1, hpred.2⟩

theorem resolveItems_forall₂ (catalog : List Product)
    (items : List OrderItemReq) (rows : List OrderItemRow)
    (h : resolveItems catalog items = .ok rows) :
    List.Forall₂ (fun (it : OrderItemReq) (r : OrderItemRow) =>
      ∃ p, p ∈ catalog ∧ p.id = it.product_id ∧ p.is_available = true ∧
        r.product_id = it.product_id ∧ r.quantity_litres = it.quantity_litres ∧
        r.unit_price = p.price_per_litre ∧
        r.subtotal = p.price_per_litre * it.quantity_litres) items rows := by
  induction items generalizing rows with
  | nil =>
    unfold resolveItems at h
    cases h
    exact List.Forall₂.nil
  | cons it rest ih =>
    unfold resolveItems at h
    cases hl : lookupAvailable catalog it.product_id with
    | none => rw [hl] at h; cases h
    | some p =>
      rw [hl] at h
      cases hr : resolveItems catalog rest with
      | error e => rw [hr] at h; cases h
      | ok rs =>
        rw [hr] at h
        cases h
        obtain ⟨hp, hid, hav⟩ := lookupAvailable_spec catalog it.product_id p hl
        exact List.Forall₂.cons ⟨p, hp, hid, hav, rfl, rfl, rfl, rfl⟩ (ih rs hr)

/-! ## Claim theorems -/

/-- C4: for every distance, `calculateDeliveryFee` returns
`2000 + 2000 * ceil(distance_km)` in integer currency units, and in
particular the fee is 4000 at 0.1 km and at 1.0 km, and 6000 at 2.0 km. -/
theorem calculateDeliveryFee_formula :
    (∀ d : ℚ, calculateDeliveryFee d = 2000 + 2000 * ⌈d⌉)
    ∧ calculateDeliveryFee 0.1 = 4000
    ∧ calculateDeliveryFee 1 = 4000
    ∧ calculateDeliveryFee 2 = 6000 := by
  refine ⟨fun d => rfl, ?_, ?_, ?_⟩
  · have hceil : ⌈(0.1:ℚ)⌉ = 1 := by
      rw [Int.ceil_eq_iff]
      norm_num
    unfold calculateDeliveryFee
    rw [hceil]
    norm_num
  · unfold calculateDeliveryFee
    norm_num
  · unfold calculateDeliveryFee
    norm_num

/-- C8 counterexample: a mapping stored with an uppercase letter in its
`symptom` field ("Flu") case-insensitively equals the requested symptom
"Flu" in the specification's sense, yet `matchedMappings` (which lowercases
only the request before an exact comparison) does not match it. -/
theorem symptom_matching_case_counterexample :
    symptomMatchesSpec mapUpper ["Flu"] = true
    ∧ matchedMappings [mapUpper] ["Flu"] = [] := by
  constructor <;> decide

/-- C8 (amended): `matchedMappings` matches exactly those mappings whose
stored `symptom` string equals the lowercased form of some requested
symptom; request casing is folded, stored casing is not. -/
theorem matchedMappings_characterization (symptomMap : List SymptomMapping)
    (symptoms : List String) (m : SymptomMapping) :
    m ∈ matchedMappings symptomMap symptoms
      ↔ m ∈ symptomMap ∧ ∃ s ∈ symptoms, lowerStr s = m.symptom := by
  unfold matchedMappings
  rw [List.mem_filter, contains_iff_mem, List.mem_map]

/-- C8 witness: a lookup for "FLU" matches the mapping stored as "flu". -/
theorem matchedMappings_characterization_witness :
    mapFlu ∈ matchedMappings [mapFlu] ["FLU"] :=
  (matchedMappings_characterization [mapFlu] ["FLU"] mapFlu).mpr
    ⟨List.mem_cons_self mapFlu [], "FLU", List.mem_cons_self "FLU" [], by decide⟩

/-- C10: a product whose `ingredients` field is absent or not an array is
never flagged as containing avoided ingredients, records no matched
ingredients, scores exactly its health-benefit bonus, and always passes the
fallback path's avoided-ingredient filter. -/
theorem nonarray_ingredients_neutral (avoid recommend symptoms : List String)
    (p : Product) (hing : p.ingredients = none) :
    (scoreProduct avoid recommend symptoms p).has_avoided_ingredients = false
    ∧ (scoreProduct avoid recommend symptoms p).matched_ingredients = []
    ∧ (scoreProduct avoid recommend symptoms p).recommendation_score
        = benefitBonus symptoms (p.health_benefits.getD [])
    ∧ fallbackKeep avoid p = true := by
  refine ⟨?_, ?_, ?_, ?_⟩ <;> simp [scoreProduct, fallbackKeep, hing]

/-- C10 witness: `prodNoIngredients` with an allergy list naming "mango" is
neither flagged nor excluded, and its score is exactly the +3 benefit
bonus. -/
theorem nonarray_ingredients_neutral_witness :
    ((scoreProduct ["mango"] [] ["immunity"] prodNoIngredients).has_avoided_ingredients = false
      ∧ (scoreProduct ["mango"] [] ["immunity"] prodNoIngredients).matched_ingredients = []
      ∧ (scoreProduct ["mango"] [] ["immunity"] prodNoIngredients).recommendation_score
          = benefitBonus ["immunity"] (prodNoIngredients.health_benefits.getD [])
      ∧ fallbackKeep ["mango"] prodNoIngredients = true)
    ∧ benefitBonus ["immunity"] (prodNoIngredients.health_benefits.getD []) = 3 :=
  ⟨nonarray_ingredients_neutral ["mango"] [] ["immunity"] prodNoIngredients rfl,
   by decide⟩

/-- C1: every order the pipeline persists carries a total equal to the sum
of its line-item subtotals plus the delivery fee, where each subtotal is the
then-current available catalog price of the requested product times the
requested quantity, and the fee comes from `calculateDeliveryFee` at the
resolved outlet distance. -/
theorem createOrder_total_amount_spec (oracle : StoreOracle)
    (newOrderId userId : Nat) (outlet : OutletResult) (catalog : List Product)
    (items : List OrderItemReq) (addr : Option Address) (pm : Option String)
    (lat lng now : ℚ) (rider : String) (store : Store)
    (o : OrderRow) (rows : List OrderItemRow)
    (ho : (createOrder oracle newOrderId userId (some outlet) catalog items addr
            pm lat lng now rider store).1 = .ok o)
    (hr : resolveItems catalog items = .ok rows) :
    o.total_amount = (rows.map (fun r => r.subtotal)).sum + (o.delivery_fee : ℚ)
    ∧ o.delivery_fee = calculateDeliveryFee outlet.distance_km
    ∧ List.Forall₂ (fun (it : OrderItemReq) (r : OrderItemRow) =>
        ∃ p, p ∈ catalog ∧ p.id = it.product_id ∧ p.is_available = true ∧
          r.product_id = it.product_id ∧ r.quantity_litres = it.quantity_litres ∧
          r.unit_price = p.price_per_litre ∧
          r.subtotal = p.price_per_litre * it.quantity_litres) items rows := by
  unfold createOrder at ho
  rw [hr] at ho
  cases hoi : oracle.orderInsertOk with
  | false => rw [hoi] at ho; simp at ho
  | true =>
    rw [hoi] at ho
    cases hii : oracle.itemsInsertOk with
    | false => rw [hii] at ho; simp at ho
    | true =>
      rw [hii] at ho
      simp only [if_true] at ho
      injection ho with ho
      refine ⟨?_, ?_, resolveItems_forall₂ catalog items rows hr⟩
      · rw [← ho]
      · rw [← ho]

/-- C2: whenever the line-item write fails after the order header was
persisted, the compensating delete removes the header again: provided the
store held no order with the fresh id beforehand, the store after the
failed `createOrder` run equals the store before it. -/
theorem createOrder_rollback_on_items_failure (oracle : StoreOracle)
    (newOrderId userId : Nat) (nearestOutlet : Option OutletResult)
    (catalog : List Product) (items : List OrderItemReq)
    (addr : Option Address) (pm : Option String) (lat lng now : ℚ)
    (rider : String) (store : Store)
    (hfresh : ∀ o ∈ store.orders, o.id ≠ newOrderId)
    (hfail : (createOrder oracle newOrderId userId nearestOutlet catalog items
                addr pm lat lng now rider store).1 = .error .OrderItemsCreationFailed) :
    (createOrder oracle newOrderId userId nearestOutlet catalog items
      addr pm lat lng now rider store).2 = store := by
  cases nearestOutlet with
  | none => simp [createOrder] at hfail
  | some outlet =>
    cases hres : resolveItems catalog items with
    | error e => simp [createOrder, hres]
    | ok rows =>
      cases hoi : oracle.orderInsertOk with
      | false => simp [createOrder, hres, hoi]
      | true =>
        cases hii : oracle.itemsInsertOk with
        | true => simp [createOrder, hres, hoi, hii] at hfail
        | false =>
          have h1 : store.orders.filter (fun o => o.id != newOrderId) = store.orders :=
            List.filter_eq_self.mpr (fun o ho => bne_iff_ne.mpr (hfresh o ho))
          simp [createOrder, hres, hoi, hii, List.filter_append, h1]

/-- C5: with the order found and the store update succeeding, cancellation
succeeds exactly when the current status is `pending` or `confirmed`; on
success every stored copy of the order is `cancelled`, and on any other
current status the call fails with `InvalidStateTransition` leaving the
store untouched. -/
theorem cancelOrder_guarded_transition (orderId userId : Nat) (store : Store)
    (o : OrderRow)
    (hfind : (store.orders.filter
        (fun r => r.id == orderId && r.user_id == userId)).head? = some o) :
    ((cancelOrder true orderId userId store).1 = .ok ()
      ↔ (o.status = .pending ∨ o.status = .confirmed))
    ∧ ((o.status = .pending ∨ o.status = .confirmed) →
        ∀ r ∈ (cancelOrder true orderId userId store).2.orders,
          r.id = orderId → r.status = .cancelled)
    ∧ (¬(o.status = .pending ∨ o.status = .confirmed) →
        (cancelOrder true orderId userId store).1 = .error .InvalidStateTransition
        ∧ (cancelOrder true orderId userId store).2 = store) := by
  have hcond : (o.status == OrderStatus.pending || o.status == OrderStatus.confirmed) = true
      ↔ (o.status = .pending ∨ o.status = .confirmed) := by
    cases hst : o.status <;> simp
  by_cases hstat : o.status = .pending ∨ o.status = .confirmed
  · refine ⟨iff_of_true (by simp [cancelOrder, hfind, hcond.mpr hstat]) hstat,
      ?_, fun hcontra => absurd hstat hcontra⟩
    intro _ r hrmem hrid
    simp only [cancelOrder, hfind, hcond.mpr hstat, if_true] at hrmem
    obtain ⟨r₀, hr₀, hr₀eq⟩ := List.mem_map.mp hrmem
    by_cases hid : (r₀.id == orderId) = true
    · rw [if_pos hid] at hr₀eq
      rw [← hr₀eq]
    · rw [if_neg hid] at hr₀eq
      rw [← hr₀eq] at hrid
      exact absurd hrid (by simpa using hid)
  · have hfalse : (o.status == OrderStatus.pending || o.status == OrderStatus.confirmed) = false := by
      cases hb : (o.status == OrderStatus.pending || o.status == OrderStatus.confirmed)
      · rfl
      · exact absurd (hcond.mp hb) hstat
    exact ⟨iff_of_false (by simp [cancelOrder, hfind, hfalse]) hstat,
      fun hcontra => absurd hcontra hstat,
      fun _ => ⟨by simp [cancelOrder, hfind, hfalse], by simp [cancelOrder, hfind, hfalse]⟩⟩

/-- C9 counterexample: the prior order sits at latitude 5; the caller
explicitly supplies latitude 0 when reordering, yet the created order is
placed at latitude 5 — the falsy value 0 is discarded by the `||`
fallback instead of being used. -/
theorem reorder_zero_override_counterexample :
    Except.map (fun o => o.delivery_lat)
        (reorder oracleOk 2 1 1 none (some 0) none none outletAtC9 catalogC9 0
          "Kato" storeC9).1 = .ok 5
    ∧ (5 : ℚ) ≠ 0 := by
  constructor
  · rfl
  · norm_num

/-- C9 (amended): `reorder` re-runs the full `createOrder` pipeline with the
prior order's line items stripped to product and quantity, but each
caller-supplied override is honoured only when truthy in the JavaScript
sense: a present address object always overrides, a nonzero latitude or
longitude overrides while 0 (or no value) falls back to the original
coordinate, and a non-empty payment string overrides while the empty string
(or no value) falls back to the original payment method. -/
theorem reorder_pipeline_and_overrides (oracle : StoreOracle)
    (newOrderId orderId userId : Nat) (delivery_address : Option Address)
    (delivery_lat delivery_lng : Option ℚ) (payment_method : Option String)
    (nearestOutletAt : ℚ → ℚ → Option OutletResult) (catalog : List Product)
    (now : ℚ) (riderInfo : String) (store : Store) (orig : OrderRow)
    (hfind : (store.orders.filter
        (fun o => o.id == orderId && o.user_id == userId)).head? = some orig) :
    reorder oracle newOrderId orderId userId delivery_address delivery_lat
        delivery_lng payment_method nearestOutletAt catalog now riderInfo store
      = createOrder oracle newOrderId userId
          (nearestOutletAt (jsOrNum delivery_lat orig.delivery_lat)
            (jsOrNum delivery_lng orig.delivery_lng))
          catalog (orderItemsFor store orderId)
          (jsOrAddr delivery_address orig.delivery_address)
          (some (jsOrStr payment_method orig.payment_method))
          (jsOrNum delivery_lat orig.delivery_lat)
          (jsOrNum delivery_lng orig.delivery_lng) now riderInfo store
    ∧ (∀ v : ℚ, delivery_lat = some v → v ≠ 0 →
        jsOrNum delivery_lat orig.delivery_lat = v)
    ∧ (delivery_lat = none ∨ delivery_lat = some 0 →
        jsOrNum delivery_lat orig.delivery_lat = orig.delivery_lat)
    ∧ (∀ v : ℚ, delivery_lng = some v → v ≠ 0 →
        jsOrNum delivery_lng orig.delivery_lng = v)
    ∧ (delivery_lng = none ∨ delivery_lng = some 0 →
        jsOrNum delivery_lng orig.delivery_lng = orig.delivery_lng)
    ∧ (∀ a : Address, delivery_address = some a →
        jsOrAddr delivery_address orig.delivery_address = some a)
    ∧ (delivery_address = none →
        jsOrAddr delivery_address orig.delivery_address = orig.delivery_address)
    ∧ (∀ s : String, payment_method = some s → s ≠ "" →
        jsOrStr payment_method orig.payment_method = s)
    ∧ (payment_method = none ∨ payment_method = some "" →
        jsOrStr payment_method orig.payment_method = orig.payment_method) := by
  refine ⟨?_, ?_, ?_, ?_, ?_, ?_, ?_, ?_, ?_⟩
  · simp [reorder, hfind]
  · intro v hv hnz
    simp [jsOrNum, hv, hnz]
  · intro hv
    cases hv with
    | inl hnone => simp [jsOrNum, hnone]
    | inr hzero => simp [jsOrNum, hzero]
  · intro v hv hnz
    simp [jsOrNum, hv, hnz]
  · intro hv
    cases hv with
    | inl hnone => simp [jsOrNum, hnone]
    | inr hzero => simp [jsOrNum, hzero]
  · intro a ha
    simp [jsOrAddr, ha]
  · intro ha
    simp [jsOrAddr, ha]
  · intro s hs hne
    simp [jsOrStr, hs, hne]
  · intro hs
    cases hs with
    | inl hnone => simp [jsOrStr, hnone]
    | inr hempty => simp [jsOrStr, hempty]

theorem resolveItemsC1 : resolveItems catalogC1 itemsC1 = .ok rowsC1 := by
  simp [resolveItems, lookupAvailable, catalogC1, itemsC1, rowsC1]
  norm_num

theorem createOrderC1_run :
    (createOrder oracleOk 10 1 (some outletC1) catalogC1 itemsC1 none (some "cash")
      1 2 0 "Kato" store0).1 = .ok orderC1 := by
  simp [createOrder, resolveItemsC1, oracleOk, outletC1, orderC1, rowsC1,
    calculateDeliveryFee, jsOrStr]
  norm_num

/-- C1 witness: the specification example, run end to end.  The persisted
order totals 33500 with a delivery fee of 8000, and the line rows carry the
then-current catalog prices 15000 and 18000 with subtotals 7500 and
18000. -/
theorem createOrder_total_amount_spec_witness :
    (orderC1.total_amount = (rowsC1.map (fun r => r.subtotal)).sum + (orderC1.delivery_fee : ℚ)
      ∧ orderC1.delivery_fee = calculateDeliveryFee outletC1.distance_km
      ∧ List.Forall₂ (fun (it : OrderItemReq) (r : OrderItemRow) =>
          ∃ p, p ∈ catalogC1 ∧ p.id = it.product_id ∧ p.is_available = true ∧
            r.product_id = it.product_id ∧ r.quantity_litres = it.quantity_litres ∧
            r.unit_price = p.price_per_litre ∧
            r.subtotal = p.price_per_litre * it.quantity_litres) itemsC1 rowsC1)
    ∧ orderC1.total_amount = 33500 ∧ orderC1.delivery_fee = 8000 :=
  ⟨createOrder_total_amount_spec oracleOk 10 1 outletC1 catalogC1 itemsC1 none
      (some "cash") 1 2 0 "Kato" store0 orderC1 rowsC1 createOrderC1_run resolveItemsC1,
    rfl, rfl⟩

/-- C2 witness: with the header insert succeeding and the line-item insert
failing on the specification example, the pipeline reports
`OrderItemsCreationFailed` and the store is exactly as before the call. -/
theorem createOrder_rollback_on_items_failure_witness :
    ((createOrder oracleItemsFail 10 1 (some outletC1) catalogC1 itemsC1 none
        (some "cash") 1 2 0 "Kato" store0).1 = .error .OrderItemsCreationFailed)
    ∧ (createOrder oracleItemsFail 10 1 (some outletC1) catalogC1 itemsC1 none
        (some "cash") 1 2 0 "Kato" store0).2 = store0 := by
  have hfail : (createOrder oracleItemsFail 10 1 (some outletC1) catalogC1 itemsC1 none
      (some "cash") 1 2 0 "Kato" store0).1 = .error .OrderItemsCreationFailed := by rfl
  exact ⟨hfail,
    createOrder_rollback_on_items_failure oracleItemsFail 10 1 (some outletC1)
      catalogC1 itemsC1 none (some "cash") 1 2 0 "Kato" store0
      (fun o ho => absurd ho (by simp [store0])) hfail⟩

/-- C5 witness: cancelling the pending order succeeds and leaves it
cancelled; cancelling the preparing order fails with
`InvalidStateTransition` and leaves the store untouched. -/
theorem cancelOrder_guarded_transition_witness :
    (((cancelOrder true 1 1 storePending).1 = .ok ()
        ↔ (orderPending.status = .pending ∨ orderPending.status = .confirmed))
      ∧ ((orderPending.status = .pending ∨ orderPending.status = .confirmed) →
          ∀ r ∈ (cancelOrder true 1 1 storePending).2.orders,
            r.id = 1 → r.status = .cancelled)
      ∧ (¬(orderPending.status = .pending ∨ orderPending.status = .confirmed) →
          (cancelOrder true 1 1 storePending).1 = .error .InvalidStateTransition
          ∧ (cancelOrder true 1 1 storePending).2 = storePending))
    ∧ (((cancelOrder true 1 1 storePreparing).1 = .ok ()
        ↔ (orderPreparing.status = .pending ∨ orderPreparing.status = .confirmed))
      ∧ ((orderPreparing.status = .pending ∨ orderPreparing.status = .confirmed) →
          ∀ r ∈ (cancelOrder true 1 1 storePreparing).2.orders,
            r.id = 1 → r.status = .cancelled)
      ∧ (¬(orderPreparing.status = .pending ∨ orderPreparing.status = .confirmed) →
          (cancelOrder true 1 1 storePreparing).1 = .error .InvalidStateTransition
          ∧ (cancelOrder true 1 1 storePreparing).2 = storePreparing))
    ∧ (cancelOrder true 1 1 storePending).1 = .ok ()
    ∧ (cancelOrder true 1 1 storePreparing).1 = .error .InvalidStateTransition :=
  ⟨cancelOrder_guarded_transition 1 1 storePending orderPending (by rfl),
    cancelOrder_guarded_transition 1 1 storePreparing orderPreparing (by rfl),
    by rfl, by rfl⟩

/-- C9 witness: a truthy caller-supplied latitude (2) does override the
original order's latitude, and the reorder equals a fresh `createOrder` run
on the prior order's stripped line items. -/
theorem reorder_pipeline_and_overrides_witness :
    (reorder oracleOk 2 1 1 none (some 2) none none outletAtC9 catalogC9 0 "Kato" storeC9
      = createOrder oracleOk 2 1
          (outletAtC9 (jsOrNum (some 2) orderOrig.delivery_lat)
            (jsOrNum none orderOrig.delivery_lng))
          catalogC9 (orderItemsFor storeC9 1)
          (jsOrAddr none orderOrig.delivery_address)
          (some (jsOrStr none orderOrig.payment_method))
          (jsOrNum (some 2) orderOrig.delivery_lat)
          (jsOrNum none orderOrig.delivery_lng) 0 "Kato" storeC9)
    ∧ jsOrNum (some 2) orderOrig.delivery_lat = 2 := by
  have h := reorder_pipeline_and_overrides oracleOk 2 1 1 none (some 2) none none
    outletAtC9 catalogC9 0 "Kato" storeC9 orderOrig (by rfl)
  exact ⟨h.1, h.2.1 2 rfl (by norm_num)⟩

theorem fallback_mem_no_allergen (mappings : List SymptomMapping)
    (allergies : List String) (shuffle : List Product → List Product)
    (products : List Product) (r : ScoredProduct)
    (hperm : ∀ l, (shuffle l).Perm l)
    (hr : r ∈ fallbackRecommendations shuffle
      (avoidIngredientsOf mappings allergies) products) :
    r.has_avoided_ingredients = false
    ∧ ∀ ings, r.product.ingredients = some ings →
        ∀ i ∈ ings, ∀ g ∈ allergies, lowerStr i ≠ lowerStr g := by
  unfold fallbackRecommendations at hr
  obtain ⟨p, hp, hpe⟩ := List.mem_map.mp hr
  have hpf : p ∈ products.filter (fallbackKeep (avoidIngredientsOf mappings allergies)) :=
    (hperm _).mem_iff.mp (List.mem_of_mem_take hp)
  have hkeep := (List.mem_filter.mp hpf).2
  constructor
  · rw [← hpe]
  · intro ings hings i hi g hg
    have hpi : p.ingredients = some ings := by
      rw [← hpe] at hings
      exact hings
    have hany : ings.any
        (fun i => (avoidIngredientsOf mappings allergies).contains (lowerStr i)) = false := by
      unfold fallbackKeep at hkeep
      rw [hpi] at hkeep
      simpa using hkeep
    exact no_allergen_of_any_eq_false mappings allergies ings hany i hi g hg

theorem scored_mem_no_allergen (mappings : List SymptomMapping)
    (allergies symptoms recommend : List String) (products : List Product)
    (r : ScoredProduct)
    (hr : r ∈ (products.map
        (scoreProduct (avoidIngredientsOf mappings allergies) recommend symptoms)).filter
      (fun sp => !sp.has_avoided_ingredients && decide (0 < sp.recommendation_score))) :
    r.has_avoided_ingredients = false
    ∧ ∀ ings, r.product.ingredients = some ings →
        ∀ i ∈ ings, ∀ g ∈ allergies, lowerStr i ≠ lowerStr g := by
  have hfilter := List.mem_filter.mp hr
  obtain ⟨p, hp, hpe⟩ := List.mem_map.mp hfilter.1
  have hhas : r.has_avoided_ingredients = false := by
    have h2 := hfilter.2
    rw [Bool.and_eq_true] at h2
    simpa using h2.1
  refine ⟨hhas, ?_⟩
  intro ings hings i hi g hg
  have hpi : p.ingredients = some ings := by
    rw [← hpe] at hings
    exact hings
  have hs : (scoreProduct (avoidIngredientsOf mappings allergies) recommend symptoms
      p).has_avoided_ingredients = false := by
    rw [hpe]
    exact hhas
  rw [scoreProduct_hasAvoided, hpi] at hs
  have hany : ings.any
      (fun i => (avoidIngredientsOf mappings allergies).contains (lowerStr i)) = false := by
    simpa using hs
  exact no_allergen_of_any_eq_false mappings allergies ings hany i hi g hg

/-- C3: no surfaced recommendation — scored path or fallback path — is
flagged as containing avoided ingredients, and none contains an ingredient
that case-insensitively equals a caller allergy. -/
theorem getRecommendations_excludes_allergens
    (shuffle : List Product → List Product) (symptoms allergies : List String)
    (symptomMap : List SymptomMapping) (allProducts : List Product)
    (resp : RecResponse)
    (hperm : ∀ l, (shuffle l).Perm l)
    (h : getRecommendations shuffle symptoms allergies symptomMap allProducts = .ok resp) :
    ∀ r ∈ resp.recommendations,
      r.has_avoided_ingredients = false
      ∧ ∀ ings, r.product.ingredients = some ings →
          ∀ i ∈ ings, ∀ g ∈ allergies, lowerStr i ≠ lowerStr g := by
  intro r hrmem
  simp only [getRecommendations] at h
  split at h
  · exact absurd h (by simp)
  · split at h
    · injection h with h
      subst h
      exact fallback_mem_no_allergen (matchedMappings symptomMap symptoms) allergies
        shuffle _ r hperm hrmem
    · injection h with h
      subst h
      have hr2 := (stableSortBy_perm scoreGe _).mem_iff.mp (List.mem_of_mem_take hrmem)
      exact scored_mem_no_allergen (matchedMappings symptomMap symptoms) allergies
        symptoms _ _ r hr2

/-- C3 witness: on the flu request with a dairy allergy against the orange
catalog, the single surfaced recommendation is unflagged and free of the
allergen, and the output is not vacuously empty. -/
theorem getRecommendations_excludes_allergens_witness :
    (∀ r ∈ respC3.recommendations,
      r.has_avoided_ingredients = false
      ∧ ∀ ings, r.product.ingredients = some ings →
          ∀ i ∈ ings, ∀ g ∈ ["dairy"], lowerStr i ≠ lowerStr g)
    ∧ respC3.recommendations.length = 1 :=
  ⟨getRecommendations_excludes_allergens (fun l => l) ["flu"] ["dairy"] [mapFlu]
      [prodOrange] respC3 (fun l => List.Perm.refl l) (by rfl),
    by decide⟩

/-- C6 counterexample: with symptoms ["flu"], an empty allergy set G and a
catalog containing only a dairy product, the scored pass yields nothing and
the fallback also filters the product out via the symptom mapping's
avoid_ingredients, so its length is 0 — but `min(3, count of products with
no ingredient in G)` is 1. -/
theorem fallback_count_claim_counterexample :
    getRecommendations (fun l => l) ["flu"] [] [mapFlu] [prodMilk] = .ok respC6
    ∧ respC6.recommendations.length = 0
    ∧ min 3 (countNoConflict [] ([prodMilk].filter (fun p => p.is_available))) = 1 :=
  ⟨by rfl, by decide, by decide⟩

/-- C6 (amended): the recommendation list never exceeds 3 entries, and when
the scored pass yields nothing (fallback response, recognisable by the
omitted `symptom_mappings_found` field) its length equals `min(3, count of
available products containing no ingredient of the avoid set A)`, where A
unites the matched mappings' avoid_ingredients with the caller allergies. -/
theorem getRecommendations_output_length
    (shuffle : List Product → List Product) (symptoms allergies : List String)
    (symptomMap : List SymptomMapping) (allProducts : List Product)
    (resp : RecResponse)
    (hperm : ∀ l, (shuffle l).Perm l)
    (h : getRecommendations shuffle symptoms allergies symptomMap allProducts = .ok resp) :
    resp.recommendations.length ≤ 3
    ∧ (resp.symptom_mappings_found = none →
        resp.recommendations.length
          = min 3 (((allProducts.filter (fun p => p.is_available)).filter
              (fallbackKeep (avoidIngredientsOf (matchedMappings symptomMap symptoms)
                allergies))).length)) := by
  simp only [getRecommendations] at h
  split at h
  · exact absurd h (by simp)
  · split at h
    · injection h with h
      subst h
      constructor
      · show (fallbackRecommendations _ _ _).length ≤ 3
        unfold fallbackRecommendations
        rw [List.length_map, List.length_take]
        exact min_le_left _ _
      · intro _
        show (fallbackRecommendations _ _ _).length = min 3 _
        unfold fallbackRecommendations
        rw [List.length_map, List.length_take, (hperm _).length_eq]
    · injection h with h
      subst h
      refine ⟨?_, fun hnone => absurd hnone (by simp)⟩
      show (List.take 3 _).length ≤ 3
      rw [List.length_take]
      exact min_le_left _ _

/-- C6 witness: with two eligible products and nothing scoring, the fallback
returns exactly `min(3, 2) = 2` entries. -/
theorem getRecommendations_output_length_witness :
    (respAB.recommendations.length ≤ 3
      ∧ (respAB.symptom_mappings_found = none →
          respAB.recommendations.length
            = min 3 ((([prodA, prodB].filter (fun p => p.is_available)).filter
                (fallbackKeep (avoidIngredientsOf (matchedMappings [] ["flu"]) []))).length)))
    ∧ respAB.recommendations.length = 2 :=
  ⟨getRecommendations_output_length (fun l => l) ["flu"] [] [] [prodA, prodB] respAB
      (fun l => List.Perm.refl l) (by rfl),
    by decide⟩

/-- C7 counterexample: two runs of the recommendation operation on identical
symptoms, allergies, catalog and symptom mappings, differing only in the
random reordering of the fallback pool (identity versus reversal — the
latter a permutation, hence a possible outcome of the random sort), return
different fallback lists. -/
theorem fallback_determinism_counterexample :
    getRecommendations (fun l => l) ["flu"] [] [] [prodA, prodB] = .ok respAB
    ∧ getRecommendations (fun l => List.reverse l) ["flu"] [] [] [prodA, prodB] = .ok respBA
    ∧ respAB ≠ respBA
    ∧ ((([prodA, prodB].filter (fun p => p.is_available)).filter
          (fallbackKeep (avoidIngredientsOf (matchedMappings [] ["flu"]) []))).reverse).Perm
        (([prodA, prodB].filter (fun p => p.is_available)).filter
          (fallbackKeep (avoidIngredientsOf (matchedMappings [] ["flu"]) []))) :=
  ⟨by rfl, by rfl, by decide, List.reverse_perm _⟩

/-- C7 (amended): what is invariant across the randomness is the count and
the scored path: two runs under any two permutations return equally long
recommendation lists, and whenever the scored path was taken (the response
reports `symptom_mappings_found`) the two runs coincide entirely. -/
theorem getRecommendations_shuffle_invariants
    (shuffle₁ shuffle₂ : List Product → List Product)
    (symptoms allergies : List String) (symptomMap : List SymptomMapping)
    (allProducts : List Product) (resp₁ resp₂ : RecResponse)
    (hperm₁ : ∀ l, (shuffle₁ l).Perm l) (hperm₂ : ∀ l, (shuffle₂ l).Perm l)
    (h₁ : getRecommendations shuffle₁ symptoms allergies symptomMap allProducts = .ok resp₁)
    (h₂ : getRecommendations shuffle₂ symptoms allergies symptomMap allProducts = .ok resp₂) :
    resp₁.recommendations.length = resp₂.recommendations.length
    ∧ (∀ n, resp₁.symptom_mappings_found = some n → resp₁ = resp₂) := by
  simp only [getRecommendations] at h₁ h₂
  split at h₁
  next hs => exact absurd h₁ (by simp)
  next hs =>
    rw [if_neg hs] at h₂
    split at h₁
    next hf =>
      rw [if_pos hf] at h₂
      injection h₁ with h₁
      injection h₂ with h₂
      subst h₁
      subst h₂
      refine ⟨?_, fun n hn => absurd hn (by simp)⟩
      show (fallbackRecommendations shuffle₁ _ _).length
        = (fallbackRecommendations shuffle₂ _ _).length
      unfold fallbackRecommendations
      rw [List.length_map, List.length_map, List.length_take, List.length_take,
        (hperm₁ _).length_eq, (hperm₂ _).length_eq]
    next hf =>
      rw [if_neg hf] at h₂
      injection h₁ with h₁
      injection h₂ with h₂
      subst h₁
      subst h₂
      exact ⟨rfl, fun n _ => rfl⟩

/-- C7 witness: the identity and reversal runs return two fallback entries
each (equal lengths), while their lists differ — the invariant is the count,
not the list. -/
theorem getRecommendations_shuffle_invariants_witness :
    (respAB.recommendations.length = respBA.recommendations.length
      ∧ (∀ n, respAB.symptom_mappings_found = some n → respAB = respBA))
    ∧ respAB.recommendations ≠ respBA.recommendations :=
  ⟨getRecommendations_shuffle_invariants (fun l => l) (fun l => List.reverse l)
      ["flu"] [] [] [prodA, prodB] respAB respBA
      (fun l => List.Perm.refl l) (fun l => List.reverse_perm l) (by rfl) (by rfl),
    by decide⟩

end FruityGulp
